import Mathlib

/-!
Shallow embedding of the decisioning pipeline of a small-business banking
service (source files checking_api.py and lending_api.py).

Database rows become Lean structures; each endpoint handler becomes a pure
function from the application aggregate (plus any freshly generated row id)
to its response, returning the updated aggregate whenever the handler
inserts rows or mutates the application.  SQL numeric and float columns are
modelled as rationals, Python int as Int, nullable columns as Option.
Child row collections are lists kept in insertion order, so the row with
the latest creation timestamp is the last element of its list.
-/

namespace Smb

/-- Python truthiness test `not x` on an optional string column: true when
the column is NULL or holds the empty string. -/
def optStrFalsy : Option String → Bool
  | none => true
  | some s => s == ""

/-- Row of the businesses table (the columns the pipeline reads). -/
structure Business where
  legal_name : String
  tax_id : Option String
  registration_number : Option String
  industry_code : Option String
  address : Option String
  years_in_business : Option Int
deriving Repr, DecidableEq

/-- Row of the checking_owners table. -/
structure Owner where
  full_name : String
  dob : Option String
  national_id : Option String
  ownership_percentage : Option ℚ
deriving Repr, DecidableEq

/-- The usage_profile JSONB field (the key the pipeline reads). -/
structure UsageProfile where
  cash_deposit_volume_per_month : Option ℚ
deriving Repr, DecidableEq

/-- Row of the checking_documents table. -/
structure Document where
  doc_type : String
  status : String
  reason_codes : List String
deriving Repr, DecidableEq

/-- Row of the checking_risk_scores table. -/
structure CheckingRiskScore where
  risk_score : Int
  risk_band : String
  driver_codes : List String
deriving Repr, DecidableEq

/-- Row of the checking_accounts table. -/
structure CheckingAccount where
  id : String
  account_number : String
  routing_number : Option String
  status : String
deriving Repr, DecidableEq

/-- The checking application aggregate: the application row together with
its child row collections, as the handlers read them. -/
structure CheckingApp where
  id : String
  product_id : String
  status : String
  business : Business
  owners : List Owner
  documents : List Document
  usage_profile : Option UsageProfile
  risk_scores : List CheckingRiskScore
  accounts : List CheckingAccount
deriving Repr, DecidableEq

structure EvaluateCompletenessResponse where
  can_proceed : Bool
  missing_field_codes : List String
  comments : Option String
deriving Repr, DecidableEq

structure EvaluateProductEligibilityResponse where
  eligible : Bool
  reason_codes : List String
deriving Repr, DecidableEq

structure EvaluateDocumentsResponse where
  docs_ok : Bool
  missing_doc_types : List String
  invalid_doc_types : List String
  reason_codes : List String
deriving Repr, DecidableEq

structure ScoreRiskResponse where
  risk_score : Int
  risk_band : String
  driver_codes : List String
deriving Repr, DecidableEq

structure OpenAccountResponse where
  account_id : String
  account_number : String
  routing_number : Option String
  status : String
deriving Repr, DecidableEq

/-- Python sorted(set(xs)) on a list of strings: drop duplicates, then sort
lexically. -/
def sortedSetOf (xs : List String) : List String :=
  List.insertionSort (· ≤ ·) xs.dedup

/-- The missing list built by evaluate_application_completeness in source
order, before deduplication and sorting. -/
def completenessMissingRaw (a : CheckingApp) : List String :=
  let b := a.business
  let m1 : List String := if optStrFalsy b.tax_id then ["BUSINESS_TAX_ID"] else []
  let m2 := m1 ++ (if optStrFalsy b.address then ["BUSINESS_ADDRESS"] else [])
  let m3 := m2 ++
    (if a.owners = [] then ["OWNERS_MISSING"]
     else (a.owners.map (fun o =>
       (if o.dob = none then ["OWNER_DOB"] else []) ++
       (if optStrFalsy o.national_id then ["OWNER_ID_NUMBER"] else []) ++
       (if o.ownership_percentage = none then ["OWNERSHIP_PERCENTAGE"] else []))).flatten)
  m3 ++ (if a.usage_profile = none then ["USAGE_PROFILE_MISSING"] else [])

/-- Handler of POST /checking/applications/evaluate_completeness
(evaluate_application_completeness in checking_api.py).  Read-only. -/
def evaluate_application_completeness (a : CheckingApp) :
    EvaluateCompletenessResponse :=
  let missing := sortedSetOf (completenessMissingRaw a)
  let can_proceed := missing.isEmpty
  ⟨can_proceed, missing,
   if can_proceed then none
   else some "Mandatory fields missing; cannot proceed without user interaction."⟩

/-- Membership of the industry code in the restricted set 7995, 9999 that
both eligibility and risk scoring test. -/
def restrictedIndustry (c : Option String) : Bool :=
  c == some "7995" || c == some "9999"

/-- The condition years_in_business is not None and years_in_business lt 1
used by eligibility and risk scoring. -/
def yearsUnderOne (b : Business) : Bool :=
  match b.years_in_business with
  | some y => y < 1
  | none => false

/-- Whether the character list p occurs at the start of the character
list s. -/
def listStartsWith : List Char → List Char → Bool
  | [], _ => true
  | _ :: _, [] => false
  | x :: xs, y :: ys => x == y && listStartsWith xs ys

/-- Whether the character list p occurs contiguously somewhere in s, the
semantics of the Python expression p in s on strings. -/
def listHasSub (p : List Char) : List Char → Bool
  | [] => p.isEmpty
  | y :: ys => listStartsWith p (y :: ys) || listHasSub p ys

/-- Python substring containment p in s. -/
def strHasSub (p s : String) : Bool :=
  listHasSub p.toList s.toList

/-- Python str.upper(), mapping each character to upper case. -/
def strUpper (s : String) : String :=
  String.mk (s.toList.map Char.toUpper)

/-- Handler of POST /checking/applications/evaluate_product_eligibility
(evaluate_product_eligibility in checking_api.py).  Read-only. -/
def evaluate_product_eligibility (a : CheckingApp) (product_id : String) :
    EvaluateProductEligibilityResponse :=
  let b := a.business
  let r1 : Bool × List String :=
    if restrictedIndustry b.industry_code then (false, ["INDUSTRY_NOT_ALLOWED"])
    else (true, [])
  let r2 : Bool × List String :=
    if yearsUnderOne b && strHasSub "PREMIUM" (strUpper product_id) then
      (false, r1.2 ++ ["MIN_AGE_OF_BUSINESS_NOT_MET"])
    else r1
  ⟨r2.1, r2.2⟩

/-- One step of the Python dict comprehension building docs_by_type: insert
document d under its doc_type key, replacing in place any earlier entry for
the same key, otherwise appending a new entry (Python dicts keep insertion
order of keys and a later binding overwrites the value). -/
def insertDocByType (m : List (String × Document)) (d : Document) :
    List (String × Document) :=
  if m.any (fun p => p.1 == d.doc_type) then
    m.map (fun p => if p.1 == d.doc_type then (p.1, d) else p)
  else m ++ [(d.doc_type, d)]

/-- The docs_by_type map of evaluate_document_set_for_application, as an
association list in key insertion order. -/
def docsByType (ds : List Document) : List (String × Document) :=
  ds.foldl insertDocByType []

/-- The fixed required document type set. -/
def requiredDocTypes : List String :=
  ["BUSINESS_REG_CERT", "TAX_ID_PROOF", "OWNER_ID_PROOF"]

/-- Handler of POST /checking/applications/evaluate_documents
(evaluate_document_set_for_application in checking_api.py).  Read-only.
The rejected-document loop runs over the whole docs_by_type map, not over
the required set. -/
def evaluate_document_set_for_application (a : CheckingApp) :
    EvaluateDocumentsResponse :=
  let docs_by_type := docsByType a.documents
  let missing := requiredDocTypes.filter
    (fun t => !(docs_by_type.any (fun p => p.1 == t)))
  let rejected := docs_by_type.filter (fun p => p.2.status == "REJECTED")
  let invalid_doc_types := rejected.map (fun p => p.1)
  let reason_codes := (rejected.map (fun p => p.2.reason_codes)).flatten
  ⟨missing.isEmpty && invalid_doc_types.isEmpty, missing, invalid_doc_types,
   sortedSetOf reason_codes⟩

/-- The band branch of score_application_risk. -/
def riskBand (risk_score : Int) : String :=
  if risk_score < 30 then "LOW" else if risk_score < 70 then "MEDIUM" else "HIGH"

/-- The expression float(up.get(cash_deposit_volume_per_month) or 0): the
cash volume read from the usage profile, 0 when the profile or the key is
absent (a stored 0 is falsy in Python and also yields 0). -/
def cashVolOf (a : CheckingApp) : ℚ :=
  match a.usage_profile with
  | none => 0
  | some up =>
    match up.cash_deposit_volume_per_month with
    | none => 0
    | some v => v

/-- Handler of POST /checking/applications/score_risk
(score_application_risk in checking_api.py).  Returns the response and the
application with the new CheckingRiskScore audit row appended. -/
def score_application_risk (a : CheckingApp) :
    ScoreRiskResponse × CheckingApp :=
  let b := a.business
  let s0 : Int × List String := (20, [])
  let s1 := if yearsUnderOne b then (s0.1 + 30, s0.2 ++ ["NEW_BUSINESS"]) else s0
  let cash_vol := cashVolOf a
  let s2 := if cash_vol > 100000 then (s1.1 + 30, s1.2 ++ ["HIGH_CASH_VOLUME"]) else s1
  let s3 := if restrictedIndustry b.industry_code then
      (s2.1 + 20, s2.2 ++ ["HIGH_RISK_INDUSTRY"]) else s2
  let band := riskBand s3.1
  let drivers := if s3.2.isEmpty then ["BASELINE"] else s3.2
  let entry : CheckingRiskScore := ⟨s3.1, band, drivers⟩
  (⟨s3.1, band, drivers⟩,
   ⟨a.id, a.product_id, a.status, a.business, a.owners, a.documents,
    a.usage_profile, a.risk_scores ++ [entry], a.accounts⟩)

/-- The expression str(app_id).replace(dash, empty)[:10]. -/
def stripDashesTake10 (s : String) : String :=
  String.mk ((s.toList.filter (fun c => c ≠ '-')).take 10)

/-- Handler of POST /checking/applications/open_account
(open_account_from_application in checking_api.py).  freshId stands for the
UUID the database default would generate for a newly inserted row. -/
def open_account_from_application (a : CheckingApp) (freshId : String) :
    OpenAccountResponse × CheckingApp :=
  match a.accounts.head? with
  | some existing =>
    (⟨existing.id, existing.account_number, existing.routing_number,
      existing.status⟩, a)
  | none =>
    let account_number := "10" ++ stripDashesTake10 a.id
    let acc : CheckingAccount :=
      ⟨freshId, account_number, some "011000015", "ACTIVE"⟩
    (⟨acc.id, acc.account_number, acc.routing_number, acc.status⟩,
     ⟨a.id, a.product_id, "DECIDED", a.business, a.owners, a.documents,
      a.usage_profile, a.risk_scores, a.accounts ++ [acc]⟩)

/-- Row of the lending_underwriting table (the columns offer generation
reads, plus the audit fields). -/
structure LendingUnderwriting where
  risk_grade : String
  recommended_max_exposure : Option ℚ
  key_risk_drivers : List String
deriving Repr, DecidableEq

/-- Row of the lending_offers table. -/
structure LendingOffer where
  id : String
  offer_code : String
  product_type : String
  credit_limit : ℚ
  min_credit_limit : Option ℚ
  max_credit_limit : Option ℚ
  apr : Option ℚ
  annual_fee : Option ℚ
  origination_fee : Option ℚ
  tenor_months : Option Int
  repayment_terms : Option String
  collateral_required : Bool
  notes : Option String
deriving Repr, DecidableEq

/-- Row of the credit_facilities table. -/
structure CreditFacility where
  id : String
  facility_type : String
  account_number : String
  credit_limit : ℚ
  apr : Option ℚ
  status : String
  billing_cycle_day : Option Int
  drawdown_terms : Option String
deriving Repr, DecidableEq

/-- The lending application aggregate with the child row collections the
modelled handlers read, lists in creation order (latest row last). -/
structure LendingApp where
  id : String
  underwriting_results : List LendingUnderwriting
  offers : List LendingOffer
  facilities : List CreditFacility
deriving Repr, DecidableEq

/-- An HTTPException raised by a handler. -/
structure HttpError where
  status_code : Nat
  detail : String
deriving Repr, DecidableEq

structure GenerateCreditLineOffersResponse where
  offers : List LendingOffer
deriving Repr, DecidableEq

structure OpenCreditFacilityResponse where
  facility_id : String
  facility_type : String
  account_number : String
  credit_limit : ℚ
  apr : Option ℚ
  status : String
  billing_cycle_day : Option Int
  drawdown_terms : Option String
deriving Repr, DecidableEq

/-- Python int(x) on a rational: truncation toward zero. -/
def truncToInt (q : ℚ) : Int :=
  if q < 0 then -((-q).floor) else q.floor

/-- Handler of POST /lending/offers/generate (generate_credit_line_offers
in lending_api.py).  The latest underwriting row is the last element of
underwriting_results; the expression uw.recommended_max_exposure or 50000.0
falls back to 50000 when the column is NULL or stores 0. -/
def generate_credit_line_offers (a : LendingApp) (freshId : String) :
    Except HttpError GenerateCreditLineOffersResponse × LendingApp :=
  match a.underwriting_results.getLast? with
  | none => (Except.error ⟨400, "No underwriting result found"⟩, a)
  | some uw =>
    let recMax : ℚ :=
      match uw.recommended_max_exposure with
      | none => 50000
      | some v => if v = 0 then 50000 else v
    let limit := recMax * 0.8
    let offer : LendingOffer :=
      ⟨freshId, "OFFER-LOC-" ++ toString (truncToInt limit), "REVOLVING_LOC",
       limit, some (limit * 0.5), some recMax, some 0.14, some 0, some 0.01,
       none, some "REVOLVING", false,
       some "Based on your revenue and bureau data."⟩
    (Except.ok ⟨[offer]⟩,
     ⟨a.id, a.underwriting_results, a.offers ++ [offer], a.facilities⟩)

/-- Handler of POST /lending/facility/open
(open_credit_facility_from_lending_application in lending_api.py).  The
offer copied from is the most recently created one, the last element of
offers. -/
def open_credit_facility_from_lending_application
    (a : LendingApp) (freshId : String) :
    Except HttpError OpenCreditFacilityResponse × LendingApp :=
  match a.facilities.head? with
  | some existing =>
    (Except.ok ⟨existing.id, existing.facility_type, existing.account_number,
      existing.credit_limit, existing.apr, existing.status,
      existing.billing_cycle_day, existing.drawdown_terms⟩, a)
  | none =>
    match a.offers.getLast? with
    | none => (Except.error ⟨400, "No offer available to open facility"⟩, a)
    | some offer =>
      let acc_num := "20" ++ stripDashesTake10 a.id
      let facility : CreditFacility :=
        ⟨freshId, offer.product_type, acc_num, offer.credit_limit, offer.apr,
         "ACTIVE", some 15, some "REVOLVING_NET_30"⟩
      (Except.ok ⟨facility.id, facility.facility_type, facility.account_number,
        facility.credit_limit, facility.apr, facility.status,
        facility.billing_cycle_day, facility.drawdown_terms⟩,
       ⟨a.id, a.underwriting_results, a.offers, a.facilities ++ [facility]⟩)

/-! Helper lemmas shared by several claim theorems. -/

/-- The band the scorer returns is riskBand of the score it returns. -/
lemma score_risk_band_eq (a : CheckingApp) :
    (score_application_risk a).1.risk_band
      = riskBand (score_application_risk a).1.risk_score := rfl

/-- Characterisation of the band branch of score_application_risk. -/
lemma riskBandSpec (s : Int) :
    (riskBand s = "LOW" ↔ s < 30)
    ∧ (riskBand s = "MEDIUM" ↔ 30 ≤ s ∧ s < 70)
    ∧ (riskBand s = "HIGH" ↔ 70 ≤ s) := by
  unfold riskBand
  split_ifs with h1 h2
  · exact ⟨⟨fun _ => h1, fun _ => rfl⟩,
      ⟨fun hh => absurd hh (by decide), fun hh => absurd hh.1 (by omega)⟩,
      ⟨fun hh => absurd hh (by decide), fun hh => absurd hh (by omega)⟩⟩
  · exact ⟨⟨fun hh => absurd hh (by decide), fun hh => absurd hh h1⟩,
      ⟨fun _ => ⟨by omega, h2⟩, fun _ => rfl⟩,
      ⟨fun hh => absurd hh (by decide), fun hh => absurd hh (by omega)⟩⟩
  · exact ⟨⟨fun hh => absurd hh (by decide), fun hh => absurd hh h1⟩,
      ⟨fun hh => absurd hh (by decide), fun hh => absurd hh.2 h2⟩,
      ⟨fun _ => by omega, fun _ => rfl⟩⟩

/-- The score the scorer returns is the additive formula over the three
rule conditions as the code tests them. -/
lemma score_components (a : CheckingApp) :
    (score_application_risk a).1.risk_score
      = 20 + (if yearsUnderOne a.business then 30 else 0)
        + (if cashVolOf a > 100000 then 30 else 0)
        + (if restrictedIndustry a.business.industry_code then 20 else 0) := by
  by_cases h1 : yearsUnderOne a.business <;>
  by_cases h2 : cashVolOf a > 100000 <;>
  by_cases h3 : restrictedIndustry a.business.industry_code <;>
  simp [score_application_risk, h1, h2, h3]

/-- Business of the C4 scenario: five years old, unrestricted industry. -/
def C4biz : Business :=
  ⟨"Acme Logistics", some "TAX-1", some "REG-1", some "1234", some "12 Main", some 5⟩

/-- Application of the C4 scenario: monthly cash deposit volume 150000. -/
def C4app : CheckingApp :=
  ⟨"c4-app", "BASIC_CHECKING", "RECEIVED", C4biz, [], [],
   some ⟨some 150000⟩, [], []⟩

/-- C4: the risk score returned and persisted by score-risk equals base 20
plus 30 when years_in_business lt 1, plus 30 when the cash deposit volume
exceeds 100000, plus 20 when the industry code is restricted; the driver
list defaults to BASELINE when no rule fired; the scenario with cash volume
150000, five years in business and industry 1234 yields score 50, band
MEDIUM and drivers HIGH_CASH_VOLUME. -/
theorem C4_risk_score_additive :
    (∀ (a : CheckingApp) (y : Int) (u : UsageProfile) (v : ℚ),
      a.business.years_in_business = some y →
      a.usage_profile = some u →
      u.cash_deposit_volume_per_month = some v →
      ((score_application_risk a).1.risk_score
          = 20 + (if y < 1 then 30 else 0) + (if v > 100000 then 30 else 0)
            + (if a.business.industry_code = some "7995"
                  ∨ a.business.industry_code = some "9999" then 20 else 0))
      ∧ ((score_application_risk a).2.risk_scores
          = a.risk_scores
            ++ [⟨(score_application_risk a).1.risk_score,
                 (score_application_risk a).1.risk_band,
                 (score_application_risk a).1.driver_codes⟩])
      ∧ (¬ y < 1 → ¬ v > 100000 →
          ¬ (a.business.industry_code = some "7995"
              ∨ a.business.industry_code = some "9999") →
          (score_application_risk a).1.driver_codes = ["BASELINE"]))
    ∧ (score_application_risk C4app).1 = ⟨50, "MEDIUM", ["HIGH_CASH_VOLUME"]⟩ := by
  constructor
  · intro a y u v hy hu hv
    have hcv : cashVolOf a = v := by simp [cashVolOf, hu, hv]
    have i1 : (yearsUnderOne a.business = true) ↔ (y < 1) := by
      simp [yearsUnderOne, hy]
    have i3 : (restrictedIndustry a.business.industry_code = true)
        ↔ (a.business.industry_code = some "7995"
            ∨ a.business.industry_code = some "9999") := by
      simp [restrictedIndustry]
    refine ⟨?_, rfl, ?_⟩
    · rw [score_components a, hcv, if_congr i1 rfl rfl, if_congr i3 rfl rfl]
    · intro hny hnv hni
      have b1 : yearsUnderOne a.business = false := by
        simp [yearsUnderOne, hy, hny]
      have b3 : restrictedIndustry a.business.industry_code = false := by
        simp only [restrictedIndustry]
        simp [not_or.mp hni |>.1, not_or.mp hni |>.2]
      simp [score_application_risk, b1, b3, hcv, hnv]
  · decide

/-- Witness for C4 at the scenario input. -/
theorem C4_risk_score_additive_witness :
    C4app.business.years_in_business = some 5
    ∧ C4app.usage_profile = some ⟨some 150000⟩
    ∧ (score_application_risk C4app).1.risk_score
        = 20 + (if (5 : Int) < 1 then 30 else 0)
          + (if (150000 : ℚ) > 100000 then 30 else 0)
          + (if C4app.business.industry_code = some "7995"
                ∨ C4app.business.industry_code = some "9999" then 20 else 0) :=
  ⟨rfl, rfl, (C4_risk_score_additive.1 C4app 5 ⟨some 150000⟩ 150000 rfl rfl rfl).1⟩

/-- C5: the risk band assigned by score-risk is determined by the computed
score with boundary inclusivity at 30 and 70: riskBand maps 29 to LOW, 30
and 69 to MEDIUM, 70 to HIGH, and for every application the returned band
is LOW iff the returned score is below 30, MEDIUM iff it lies in 30 to 69,
HIGH iff it is at least 70. -/
theorem C5_risk_band_boundaries :
    (riskBand 29 = "LOW" ∧ riskBand 30 = "MEDIUM" ∧ riskBand 69 = "MEDIUM"
      ∧ riskBand 70 = "HIGH")
    ∧ ∀ a : CheckingApp,
        ((score_application_risk a).1.risk_band = "LOW"
          ↔ (score_application_risk a).1.risk_score < 30)
        ∧ ((score_application_risk a).1.risk_band = "MEDIUM"
          ↔ 30 ≤ (score_application_risk a).1.risk_score
            ∧ (score_application_risk a).1.risk_score < 70)
        ∧ ((score_application_risk a).1.risk_band = "HIGH"
          ↔ 70 ≤ (score_application_risk a).1.risk_score) := by
  refine ⟨⟨by decide, by decide, by decide, by decide⟩, fun a => ?_⟩
  rw [score_risk_band_eq a]
  exact riskBandSpec _

/-- Membership in the deduplicated sorted output coincides with membership
in the input list. -/
lemma mem_sortedSetOf (c : String) (xs : List String) :
    c ∈ sortedSetOf xs ↔ c ∈ xs := by
  simp [sortedSetOf, List.mem_insertionSort, List.mem_dedup]

/-- Application with no owners used by the C7 witness. -/
def C7app : CheckingApp :=
  ⟨"c7-app", "BASIC_CHECKING", "RECEIVED",
   ⟨"Acme Retail", none, none, none, none, none⟩, [], [], none, [], []⟩

/-- C7: with zero owners, completeness returns OWNERS_MISSING among the
codes and can_proceed false; in general the returned code list is
deduplicated and sorted lexically, can_proceed holds iff the list is
empty, and the fixed comment is attached exactly when can_proceed is
false. -/
theorem C7_completeness_owners_missing :
    ∀ a : CheckingApp,
      (a.owners = [] →
        "OWNERS_MISSING" ∈ (evaluate_application_completeness a).missing_field_codes
        ∧ (evaluate_application_completeness a).can_proceed = false)
      ∧ (evaluate_application_completeness a).missing_field_codes.Nodup
      ∧ List.Sorted (· ≤ ·)
          (evaluate_application_completeness a).missing_field_codes
      ∧ ((evaluate_application_completeness a).can_proceed = true
          ↔ (evaluate_application_completeness a).missing_field_codes = [])
      ∧ ((evaluate_application_completeness a).comments
          = if (evaluate_application_completeness a).can_proceed then none
            else some "Mandatory fields missing; cannot proceed without user interaction.") := by
  intro a
  refine ⟨?_, ?_, ?_, ?_, rfl⟩
  · intro h
    have hmem : "OWNERS_MISSING"
        ∈ (evaluate_application_completeness a).missing_field_codes := by
      show "OWNERS_MISSING" ∈ sortedSetOf (completenessMissingRaw a)
      rw [mem_sortedSetOf]
      simp [completenessMissingRaw, h]
    refine ⟨hmem, ?_⟩
    have hmem2 : "OWNERS_MISSING" ∈ sortedSetOf (completenessMissingRaw a) := hmem
    show (sortedSetOf (completenessMissingRaw a)).isEmpty = false
    rcases he : sortedSetOf (completenessMissingRaw a) with _ | ⟨x, xs⟩
    · rw [he] at hmem2
      simp at hmem2
    · rfl
  · show (sortedSetOf (completenessMissingRaw a)).Nodup
    exact (List.perm_insertionSort _ _).nodup_iff.mpr
      (List.nodup_dedup (completenessMissingRaw a))
  · exact List.sorted_insertionSort _ _
  · show (sortedSetOf (completenessMissingRaw a)).isEmpty = true ↔ _
    exact List.isEmpty_iff

/-- Witness for C7 at a concrete zero-owner application. -/
theorem C7_completeness_owners_missing_witness :
    C7app.owners = []
    ∧ "OWNERS_MISSING" ∈ (evaluate_application_completeness C7app).missing_field_codes
    ∧ (evaluate_application_completeness C7app).can_proceed = false :=
  ⟨rfl, ((C7_completeness_owners_missing C7app).1 rfl).1,
   ((C7_completeness_owners_missing C7app).1 rfl).2⟩

/-- Business of the C8 scenario: zero years old, restricted industry. -/
def C8biz : Business :=
  ⟨"Acme Gaming", some "TAX-8", some "REG-8", some "9999", some "8 Side St", some 0⟩

/-- Application of the C8 scenario. -/
def C8app : CheckingApp :=
  ⟨"c8-app", "PREMIUM_CHECKING", "RECEIVED", C8biz, [], [], none, [], []⟩

/-- C8: the scenario business with years_in_business 0 and industry 9999
is ineligible for PREMIUM_CHECKING with both INDUSTRY_NOT_ALLOWED and
MIN_AGE_OF_BUSINESS_NOT_MET; in general eligible is false iff at least one
reason code was added, and the PREMIUM test is a case-insensitive
substring match on the requested product identifier. -/
theorem C8_premium_eligibility :
    ((evaluate_product_eligibility C8app "PREMIUM_CHECKING").eligible = false
      ∧ "INDUSTRY_NOT_ALLOWED"
          ∈ (evaluate_product_eligibility C8app "PREMIUM_CHECKING").reason_codes
      ∧ "MIN_AGE_OF_BUSINESS_NOT_MET"
          ∈ (evaluate_product_eligibility C8app "PREMIUM_CHECKING").reason_codes)
    ∧ (∀ (a : CheckingApp) (p : String),
        (evaluate_product_eligibility a p).eligible = true
          ↔ (evaluate_product_eligibility a p).reason_codes = [])
    ∧ (∀ p q : String, strUpper p = strUpper q →
        strHasSub "PREMIUM" (strUpper p) = strHasSub "PREMIUM" (strUpper q))
    ∧ (strHasSub "PREMIUM" (strUpper "premium_checking") = true
      ∧ strHasSub "PREMIUM" (strUpper "Premium_Checking") = true
      ∧ strHasSub "PREMIUM" (strUpper "BASIC_CHECKING") = false)
    ∧ (∀ (a : CheckingApp) (p : String),
        "MIN_AGE_OF_BUSINESS_NOT_MET"
            ∈ (evaluate_product_eligibility a p).reason_codes
          ↔ (yearsUnderOne a.business
              && strHasSub "PREMIUM" (strUpper p)) = true) := by
  refine ⟨by decide, ?_, fun p q h => by rw [h], by decide, ?_⟩
  · intro a p
    by_cases h1 : restrictedIndustry a.business.industry_code <;>
    by_cases h2 : (yearsUnderOne a.business
        && strHasSub "PREMIUM" (strUpper p)) = true <;>
    simp [evaluate_product_eligibility, h1, h2]
  · intro a p
    by_cases h1 : restrictedIndustry a.business.industry_code <;>
    by_cases h2 : (yearsUnderOne a.business
        && strHasSub "PREMIUM" (strUpper p)) = true <;>
    simp [evaluate_product_eligibility, h1, h2]

/-- Witness for C8 instantiating the case-insensitivity clause. -/
theorem C8_premium_eligibility_witness :
    strUpper "Premium" = strUpper "pREMIUM"
    ∧ strHasSub "PREMIUM" (strUpper "Premium")
        = strHasSub "PREMIUM" (strUpper "pREMIUM") :=
  ⟨by decide, C8_premium_eligibility.2.2.1 "Premium" "pREMIUM" (by decide)⟩

/-- Application with NULL years_in_business used by the C10 witness. -/
def C10app : CheckingApp :=
  ⟨"c10-app", "PREMIUM_CHECKING", "RECEIVED",
   ⟨"Acme Foods", some "TAX-10", some "REG-10", some "1234", some "1 Rue", none⟩,
   [], [], some ⟨some 999999⟩, [], []⟩

/-- C10: a business whose years_in_business is NULL is never treated as
younger than one year: product eligibility never adds
MIN_AGE_OF_BUSINESS_NOT_MET even for PREMIUM products, and risk scoring
never adds the NEW_BUSINESS driver or its 30-point contribution. -/
theorem C10_null_years_not_young :
    ∀ (a : CheckingApp) (p : String),
      a.business.years_in_business = none →
      "MIN_AGE_OF_BUSINESS_NOT_MET"
          ∉ (evaluate_product_eligibility a p).reason_codes
      ∧ "NEW_BUSINESS" ∉ (score_application_risk a).1.driver_codes
      ∧ (score_application_risk a).1.risk_score
          = 20 + (if cashVolOf a > 100000 then 30 else 0)
            + (if restrictedIndustry a.business.industry_code then 20 else 0) := by
  intro a p h
  have hyb : yearsUnderOne a.business = false := by simp [yearsUnderOne, h]
  refine ⟨?_, ?_, ?_⟩
  · by_cases h1 : restrictedIndustry a.business.industry_code <;>
    simp [evaluate_product_eligibility, hyb, h1]
  · by_cases h2 : cashVolOf a > 100000 <;>
    by_cases h3 : restrictedIndustry a.business.industry_code <;>
    simp [score_application_risk, hyb, h2, h3]
  · rw [score_components a, hyb]
    simp

/-- Witness for C10 at a concrete NULL-years application. -/
theorem C10_null_years_not_young_witness :
    C10app.business.years_in_business = none
    ∧ "MIN_AGE_OF_BUSINESS_NOT_MET"
        ∉ (evaluate_product_eligibility C10app "PREMIUM_CHECKING").reason_codes
    ∧ "NEW_BUSINESS" ∉ (score_application_risk C10app).1.driver_codes :=
  ⟨rfl, (C10_null_years_not_young C10app "PREMIUM_CHECKING" rfl).1,
   (C10_null_years_not_young C10app "PREMIUM_CHECKING" rfl).2.1⟩

/-- A rejected document of a type outside the required set. -/
def C1doc : Document := ⟨"EXTRA_DOC", "REJECTED", ["BLURRY_SCAN"]⟩

/-- Application holding only that non-required rejected document. -/
def C1app : CheckingApp :=
  ⟨"c1-app", "BASIC_CHECKING", "RECEIVED", C4biz, [], [C1doc], none, [], []⟩

/-- C1 counterexample: an uploaded REJECTED document whose doc_type
EXTRA_DOC lies outside the required set does appear in invalid_doc_types
and its reason code is merged into the aggregate, contrary to the claim
that such documents are ignored. -/
theorem C1_counterexample_extra_doc_counted :
    "EXTRA_DOC" ∉ requiredDocTypes
    ∧ "EXTRA_DOC"
        ∈ (evaluate_document_set_for_application C1app).invalid_doc_types
    ∧ "BLURRY_SCAN"
        ∈ (evaluate_document_set_for_application C1app).reason_codes := by
  decide

/-- C1 (amended): the document evaluator does not restrict the rejection
scan to the required set: every entry of the by-type document map whose
status is REJECTED, required or not, has its type added to
invalid_doc_types and each of its reason codes merged into the aggregate
reason_codes of the response. -/
theorem C1_rejected_any_type_counted :
    ∀ (a : CheckingApp) (t : String) (d : Document),
      (t, d) ∈ docsByType a.documents →
      d.status = "REJECTED" →
      t ∈ (evaluate_document_set_for_application a).invalid_doc_types
      ∧ (d.reason_codes.all
          (fun c => decide
            (c ∈ (evaluate_document_set_for_application a).reason_codes)))
          = true := by
  intro a t d hmem hrej
  constructor
  · show t ∈ ((docsByType a.documents).filter
      (fun p => p.2.status == "REJECTED")).map (fun p => p.1)
    exact List.mem_map.mpr
      ⟨(t, d), List.mem_filter.mpr ⟨hmem, by simp [hrej]⟩, rfl⟩
  · rw [List.all_eq_true]
    intro c hc
    rw [decide_eq_true_eq]
    show c ∈ sortedSetOf ((((docsByType a.documents).filter
      (fun p => p.2.status == "REJECTED")).map (fun p => p.2.reason_codes)).flatten)
    rw [mem_sortedSetOf]
    exact List.mem_flatten.mpr
      ⟨d.reason_codes,
       List.mem_map.mpr ⟨(t, d), List.mem_filter.mpr ⟨hmem, by simp [hrej]⟩, rfl⟩,
       hc⟩

/-- Witness for the amended C1 theorem at the counterexample input. -/
theorem C1_rejected_any_type_counted_witness :
    ("EXTRA_DOC", C1doc) ∈ docsByType C1app.documents
    ∧ C1doc.status = "REJECTED"
    ∧ "EXTRA_DOC"
        ∈ (evaluate_document_set_for_application C1app).invalid_doc_types :=
  ⟨by decide, rfl,
   (C1_rejected_any_type_counted C1app "EXTRA_DOC" C1doc (by decide) rfl).1⟩

/-- C9: when an application holds two documents of the same doc_type, the
evaluation coincides with that of the application holding only the later
document, and a later non-REJECTED document leaves both invalid_doc_types
and the aggregate reason_codes empty, masking the earlier rejected one. -/
theorem C9_last_document_per_type_wins :
    ∀ (a : CheckingApp) (d1 d2 : Document),
      d1.doc_type = d2.doc_type →
      (evaluate_document_set_for_application
          ⟨a.id, a.product_id, a.status, a.business, a.owners, [d1, d2],
           a.usage_profile, a.risk_scores, a.accounts⟩
        = evaluate_document_set_for_application
          ⟨a.id, a.product_id, a.status, a.business, a.owners, [d2],
           a.usage_profile, a.risk_scores, a.accounts⟩)
      ∧ (d2.status ≠ "REJECTED" →
          (evaluate_document_set_for_application
            ⟨a.id, a.product_id, a.status, a.business, a.owners, [d1, d2],
             a.usage_profile, a.risk_scores, a.accounts⟩).invalid_doc_types = []
          ∧ (evaluate_document_set_for_application
            ⟨a.id, a.product_id, a.status, a.business, a.owners, [d1, d2],
             a.usage_profile, a.risk_scores, a.accounts⟩).reason_codes = []) := by
  intro a d1 d2 h
  obtain ⟨t1, s1, rc1⟩ := d1
  obtain ⟨t2, s2, rc2⟩ := d2
  simp only [Document.doc_type] at h
  subst h
  have hmap : docsByType [⟨t1, s1, rc1⟩, ⟨t1, s2, rc2⟩]
      = [(t1, ⟨t1, s2, rc2⟩)] := by
    simp [docsByType, insertDocByType]
  have hmap2 : docsByType [(⟨t1, s2, rc2⟩ : Document)]
      = [(t1, ⟨t1, s2, rc2⟩)] := by
    simp [docsByType, insertDocByType]
  constructor
  · simp only [evaluate_document_set_for_application, hmap, hmap2]
  · intro hne
    simp only [evaluate_document_set_for_application, hmap]
    constructor
    · show (([(t1, (⟨t1, s2, rc2⟩ : Document))].filter
        (fun p => p.2.status == "REJECTED")).map (fun p => p.1)) = []
      simp [hne]
    · show sortedSetOf ((([(t1, (⟨t1, s2, rc2⟩ : Document))].filter
        (fun p => p.2.status == "REJECTED")).map
          (fun p => p.2.reason_codes)).flatten) = []
      simp [hne, sortedSetOf]

/-- Witness for C9 at a concrete pair of same-type documents. -/
theorem C9_last_document_per_type_wins_witness :
    (evaluate_document_set_for_application
        ⟨"c9-app", "BASIC_CHECKING", "RECEIVED", C4biz, [],
         [⟨"TAX_ID_PROOF", "REJECTED", ["BLURRY_SCAN"]⟩,
          ⟨"TAX_ID_PROOF", "VALIDATED", []⟩], none, [], []⟩).invalid_doc_types = []
    ∧ (evaluate_document_set_for_application
        ⟨"c9-app", "BASIC_CHECKING", "RECEIVED", C4biz, [],
         [⟨"TAX_ID_PROOF", "REJECTED", ["BLURRY_SCAN"]⟩,
          ⟨"TAX_ID_PROOF", "VALIDATED", []⟩], none, [], []⟩).reason_codes = [] :=
  (C9_last_document_per_type_wins
    ⟨"c9-app", "BASIC_CHECKING", "RECEIVED", C4biz, [], [], none, [], []⟩
    ⟨"TAX_ID_PROOF", "REJECTED", ["BLURRY_SCAN"]⟩
    ⟨"TAX_ID_PROOF", "VALIDATED", []⟩ rfl).2 (by decide)

/-- Lending application with no rows at all, used by the C3 witness. -/
def C3app : LendingApp := ⟨"c3-app", [], [], []⟩

/-- C3: with no Underwriting row, generate-offers fails with the 400
client error and leaves the persisted state, in particular the Offer rows,
unchanged. -/
theorem C3_offers_need_underwriting :
    ∀ (a : LendingApp) (freshId : String),
      a.underwriting_results = [] →
      (generate_credit_line_offers a freshId).1
          = Except.error ⟨400, "No underwriting result found"⟩
      ∧ (generate_credit_line_offers a freshId).2 = a
      ∧ (generate_credit_line_offers a freshId).2.offers = a.offers := by
  intro a f h
  simp [generate_credit_line_offers, h]

/-- Witness for C3 at the empty lending application. -/
theorem C3_offers_need_underwriting_witness :
    C3app.underwriting_results = []
    ∧ (generate_credit_line_offers C3app "off-1").1
        = Except.error ⟨400, "No underwriting result found"⟩
    ∧ (generate_credit_line_offers C3app "off-1").2.offers = C3app.offers :=
  ⟨rfl, (C3_offers_need_underwriting C3app "off-1" rfl).1,
   (C3_offers_need_underwriting C3app "off-1" rfl).2.2⟩

/-- Underwriting row used by the C6 witness. -/
def C6uw : LendingUnderwriting := ⟨"B", some 60000, ["BASELINE"]⟩

/-- Lending application holding that single underwriting row. -/
def C6app : LendingApp := ⟨"c6-app", [C6uw], [], []⟩

/-- C6: with a latest underwriting row whose recommended_max_exposure is a
present nonzero value r, generate-offers appends exactly one revolving
line offer with credit_limit 0.8 r, minimum half of that, maximum r, apr
0.14, origination fee 0.01, zero annual fee and no collateral. -/
theorem C6_offer_terms :
    ∀ (a : LendingApp) (freshId : String) (uw : LendingUnderwriting) (r : ℚ),
      a.underwriting_results.getLast? = some uw →
      uw.recommended_max_exposure = some r →
      r ≠ 0 →
      (generate_credit_line_offers a freshId).1.isOk = true
      ∧ (generate_credit_line_offers a freshId).2.offers.dropLast = a.offers
      ∧ (generate_credit_line_offers a freshId).2.offers.length
          = a.offers.length + 1
      ∧ ((generate_credit_line_offers a freshId).2.offers.getLast?).map
          (fun o => o.product_type) = some "REVOLVING_LOC"
      ∧ ((generate_credit_line_offers a freshId).2.offers.getLast?).map
          (fun o => o.credit_limit) = some (0.8 * r)
      ∧ ((generate_credit_line_offers a freshId).2.offers.getLast?).map
          (fun o => o.min_credit_limit) = some (some (0.5 * (0.8 * r)))
      ∧ ((generate_credit_line_offers a freshId).2.offers.getLast?).map
          (fun o => o.max_credit_limit) = some (some r)
      ∧ ((generate_credit_line_offers a freshId).2.offers.getLast?).map
          (fun o => o.apr) = some (some 0.14)
      ∧ ((generate_credit_line_offers a freshId).2.offers.getLast?).map
          (fun o => o.origination_fee) = some (some 0.01)
      ∧ ((generate_credit_line_offers a freshId).2.offers.getLast?).map
          (fun o => o.annual_fee) = some (some 0)
      ∧ ((generate_credit_line_offers a freshId).2.offers.getLast?).map
          (fun o => o.collateral_required) = some false := by
  intro a f uw r h1 h2 h3
  have hred : generate_credit_line_offers a f
      = (Except.ok ⟨[⟨f, "OFFER-LOC-" ++ toString (truncToInt (r * 0.8)),
            "REVOLVING_LOC", r * 0.8, some (r * 0.8 * 0.5), some r, some 0.14,
            some 0, some 0.01, none, some "REVOLVING", false,
            some "Based on your revenue and bureau data."⟩]⟩,
         ⟨a.id, a.underwriting_results,
          a.offers ++ [⟨f, "OFFER-LOC-" ++ toString (truncToInt (r * 0.8)),
            "REVOLVING_LOC", r * 0.8, some (r * 0.8 * 0.5), some r, some 0.14,
            some 0, some 0.01, none, some "REVOLVING", false,
            some "Based on your revenue and bureau data."⟩],
          a.facilities⟩) := by
    simp only [generate_credit_line_offers, h1, h2]
    rw [if_neg h3]
  refine ⟨by rw [hred]; rfl, by rw [hred]; exact List.dropLast_concat,
    by rw [hred]; simp, ?_, ?_, ?_, ?_, ?_, ?_, ?_, ?_⟩ <;>
  · rw [hred]
    show ((a.offers ++ [_]).getLast?).map _ = _
    rw [List.getLast?_concat]
    simp [Option.map]
    try ring

/-- Witness for C6 at a single underwriting row with exposure 60000. -/
theorem C6_offer_terms_witness :
    C6app.underwriting_results.getLast? = some C6uw
    ∧ C6uw.recommended_max_exposure = some 60000
    ∧ ((generate_credit_line_offers C6app "off-1").2.offers.getLast?).map
        (fun o => o.credit_limit) = some (0.8 * 60000)
    ∧ ((generate_credit_line_offers C6app "off-1").2.offers.getLast?).map
        (fun o => o.collateral_required) = some false :=
  ⟨rfl, rfl,
   (C6_offer_terms C6app "off-1" C6uw 60000 rfl rfl
     (by norm_num)).2.2.2.2.1,
   (C6_offer_terms C6app "off-1" C6uw 60000 rfl rfl
     (by norm_num)).2.2.2.2.2.2.2.2.2.2⟩

/-- Checking application with no account row, for the C2 witness. -/
def C2capp : CheckingApp :=
  ⟨"c2-capp", "BASIC_CHECKING", "RECEIVED", C4biz, [], [], none, [], []⟩

/-- Offer row for the C2 witness lending application. -/
def C2loff : LendingOffer :=
  ⟨"off-0", "OFFER-LOC-48000", "REVOLVING_LOC", 48000, some 24000, some 60000,
   some 0.14, some 0, some 0.01, none, some "REVOLVING", false, none⟩

/-- Lending application with one offer and no facility, for the C2
witness. -/
def C2lapp : LendingApp := ⟨"c2-lapp", [], [C2loff], []⟩

/-- C2: opening the account or facility a second time returns the same row
id and account number as the first call, changes no state, and exactly one
Account or Facility row exists afterward.  The hypotheses state the data
model invariant that at most one such row exists before the calls, and for
lending that an offer exists when no facility does, so that the first call
can succeed. -/
theorem C2_open_idempotent :
    (∀ (a : CheckingApp) (i1 i2 : String),
      a.accounts.length ≤ 1 →
      (open_account_from_application a i1).1.account_id
          = (open_account_from_application
              (open_account_from_application a i1).2 i2).1.account_id
      ∧ (open_account_from_application a i1).1.account_number
          = (open_account_from_application
              (open_account_from_application a i1).2 i2).1.account_number
      ∧ (open_account_from_application
            (open_account_from_application a i1).2 i2).2
          = (open_account_from_application a i1).2
      ∧ (open_account_from_application a i1).2.accounts.length = 1)
    ∧ (∀ (a : LendingApp) (i1 i2 : String),
      a.facilities.length ≤ 1 →
      (a.facilities = [] → a.offers ≠ []) →
      (open_credit_facility_from_lending_application a i1).1.isOk = true
      ∧ (open_credit_facility_from_lending_application
            (open_credit_facility_from_lending_application a i1).2 i2).1.isOk
          = true
      ∧ ((open_credit_facility_from_lending_application a i1).1.map
            (fun r => r.facility_id)
          = (open_credit_facility_from_lending_application
              (open_credit_facility_from_lending_application a i1).2 i2).1.map
              (fun r => r.facility_id))
      ∧ ((open_credit_facility_from_lending_application a i1).1.map
            (fun r => r.account_number)
          = (open_credit_facility_from_lending_application
              (open_credit_facility_from_lending_application a i1).2 i2).1.map
              (fun r => r.account_number))
      ∧ (open_credit_facility_from_lending_application
            (open_credit_facility_from_lending_application a i1).2 i2).2
          = (open_credit_facility_from_lending_application a i1).2
      ∧ (open_credit_facility_from_lending_application a i1).2.facilities.length
          = 1) := by
  constructor
  · intro a i1 i2 hlen
    rcases ha : a.accounts with _ | ⟨x, xs⟩
    · simp [open_account_from_application, ha]
    · rcases xs with _ | ⟨y, ys⟩
      · simp [open_account_from_application, ha]
      · rw [ha] at hlen
        simp at hlen
  · intro a i1 i2 hlen hoff
    rcases ha : a.facilities with _ | ⟨x, xs⟩
    · have hne : a.offers ≠ [] := hoff ha
      rcases ho : a.offers.getLast? with _ | o
      · rw [List.getLast?_eq_none_iff] at ho
        exact absurd ho hne
      · simp [open_credit_facility_from_lending_application, ha, ho,
          Except.isOk, Except.toBool, Except.map]
    · rcases xs with _ | ⟨y, ys⟩
      · simp [open_credit_facility_from_lending_application, ha,
          Except.isOk, Except.toBool, Except.map]
      · rw [ha] at hlen
        simp at hlen

/-- Witness for C2 at concrete fresh applications. -/
theorem C2_open_idempotent_witness :
    C2capp.accounts.length ≤ 1
    ∧ (open_account_from_application C2capp "acc-1").1.account_number
        = (open_account_from_application
            (open_account_from_application C2capp "acc-1").2 "acc-2").1.account_number
    ∧ (open_account_from_application C2capp "acc-1").2.accounts.length = 1
    ∧ (open_credit_facility_from_lending_application C2lapp "fac-1").2.facilities.length
        = 1 :=
  ⟨by decide,
   (C2_open_idempotent.1 C2capp "acc-1" "acc-2" (by decide)).2.1,
   (C2_open_idempotent.1 C2capp "acc-1" "acc-2" (by decide)).2.2.2,
   (C2_open_idempotent.2 C2lapp "fac-1" "fac-2" (by decide)
     (fun _ => by simp [C2lapp])).2.2.2.2.2⟩

end Smb
